import Mathlib

/-!
Verification of the U-Net graph-builder module (`architecture/networks.py`).

The development embeds, as executable Lean definitions:
* the shape calculator `get_output_side_length` (an `Except`-valued function on
  integers, with structured errors mirroring the `ValueError`s of the source,
  plus a zero-division error matching Python's `%` on a zero divisor);
* the two graph builders `unet` and `parameter_efficient`, as constructors of
  an inductive `Tensor` type of graph terms, where the primitives of the
  external `layers` collaborator (conv_block, res_block, max_pool, dropout,
  upconv blocks, batch normalization, weight/bias variables) are opaque graph
  nodes.  Variable-scope bookkeeping is pure naming and carries no dataflow,
  so it is not modelled; floating-point initialization scales are kept as
  symbolic `sqrt(2/d)` expressions; the shape inference performed by the
  external engine for the classification head is an explicit oracle argument
  `channelDim`.
-/

namespace UNetModel

/-- The error cases raised by the shape calculator: the two negative-side
errors record the numeric context embedded in the exception message (number of
max-pooling layers passed, 1-based convolution index), the divisibility error
records pool size, current side length and 1-based pooling-layer index, and
`zeroDivision` models Python's `ZeroDivisionError` for `% 0`. -/
inductive UNetError where
  | tooSmallContracting (poolLayers : Nat) (convIndex : Nat)
  | notDivisible (poolSize : Int) (sideLength : Int) (poolLayer : Nat)
  | tooSmallBottom (convIndex : Nat)
  | zeroDivision
deriving DecidableEq, Repr

/-- The inner convolution loop of the shape calculator: subtract
`filter_size - 1` once per convolution, raising via `mkErr` (which receives the
1-based convolution index) as soon as the running value drops below zero. -/
def convDown (filter_size : Int) (mkErr : Nat → UNetError) :
    Nat → Int → Nat → Except UNetError Int
  | 0, s, _ => Except.ok s
  | n + 1, s, j =>
    let s' := s - (filter_size - 1)
    if s' < 0 then Except.error (mkErr (j + 1))
    else convDown filter_size mkErr n s' (j + 1)

/-- The contracting loop of the shape calculator: for each remaining stage,
run the convolutions, require exact divisibility by `pool_size` (Python's `%`
raises on a zero divisor first), then floor-divide.  The accumulator `i` is
the 0-based stage index used in the error messages. -/
def contractLoop (convolutions : Nat) (filter_size pool_size : Int) :
    Nat → Int → Nat → Except UNetError Int
  | 0, s, _ => Except.ok s
  | n + 1, s, i =>
    match convDown filter_size (fun j => UNetError.tooSmallContracting i j) convolutions s 0 with
    | Except.error e => Except.error e
    | Except.ok s' =>
      if pool_size = 0 then Except.error UNetError.zeroDivision
      else if s' % pool_size ≠ 0 then
        Except.error (UNetError.notDivisible pool_size s' (i + 1))
      else contractLoop convolutions filter_size pool_size n (s'.fdiv pool_size) (i + 1)

/-- The expanding loop of the shape calculator: multiply by `pool_size`, then
subtract `convolutions * (filter_size - 1)`, with no checks. -/
def expandLoop (convolutions : Nat) (filter_size pool_size : Int) : Nat → Int → Int
  | 0, s => s
  | n + 1, s =>
    expandLoop convolutions filter_size pool_size n
      (s * pool_size - (convolutions : Int) * (filter_size - 1))

/-- The shape calculator `get_output_side_length`: `depth - 1` contracting
stages, one bottom stage of convolutions, `depth - 1` expanding stages. -/
def get_output_side_length (side_length : Int) (depth convolutions : Nat)
    (filter_size pool_size : Int) : Except UNetError Int :=
  match contractLoop convolutions filter_size pool_size (depth - 1) side_length 0 with
  | Except.error e => Except.error e
  | Except.ok s =>
    match convDown filter_size (fun j => UNetError.tooSmallBottom j) convolutions s 0 with
    | Except.error e => Except.error e
    | Except.ok s => Except.ok (expandLoop convolutions filter_size pool_size (depth - 1) s)

/-- Companion definition following the specification's description of the
shape calculator (for the refinement claim): repeat `depth - 1` times
"subtract `convolutions * (filter_size - 1)` then divide exactly by
`pool_size`", subtract once more at the bottom, then repeat `depth - 1` times
"multiply by `pool_size` then subtract `convolutions * (filter_size - 1)`",
with no checks. -/
def spec_output_side_length (side_length : Int) (depth convolutions : Nat)
    (filter_size pool_size : Int) : Int :=
  (fun s => s * pool_size - (convolutions : Int) * (filter_size - 1))^[depth - 1]
    (((fun s => (s - (convolutions : Int) * (filter_size - 1)).fdiv pool_size)^[depth - 1]
      side_length) - (convolutions : Int) * (filter_size - 1))

/-- ASCII lowercasing, modelling Python's `str.lower` on the ASCII activation
strings accepted by the builders. -/
def strLower (s : String) : String :=
  String.mk (s.data.map Char.toLower)

/-- Tensor element types appearing in the placeholders of the builders. -/
inductive DType where
  | float32
  | int32
  | boolT
deriving DecidableEq, Repr

/-- Convolution padding mode, as passed to the layer primitives. -/
inductive Padding where
  | same
  | valid
deriving DecidableEq, Repr

/-- Symbolic initialization scale: `sqrt2Over d` stands for the floating-point
expression `np.sqrt(2. / d)`. -/
inductive Stddev where
  | sqrt2Over (den : Nat)
deriving DecidableEq, Repr

/-- The channel-count argument of `conv_block`: either an explicit
`out_filters` or a (possibly fractional) `channel_multiplier`. -/
inductive ConvBlockChannels where
  | outFilters (n : Nat)
  | channelMultiplier (q : ℚ)
deriving DecidableEq, Repr

/-- Graph terms.  Primitives of the external `layers` collaborator and of the
tensor engine are opaque constructors recording exactly the arguments the
builders pass.  `res_block` with `channel_multiplier = 2` returns a pair in
the source; its two components are the `resBlock` and `resBlockTiled` nodes. -/
inductive Tensor where
  | placeholder (dtype : DType) (shape : List Nat) (name : String)
  | transpose (t : Tensor) (perm : List Nat)
  | weightVariable (shape : List Nat) (stddev : Stddev) (name : String)
  | biasVariable (shape : List Nat) (name : String)
  | convBlock (input : Tensor) (filterSize : Nat) (channels : ConvBlockChannels)
      (convolutions : Nat) (padding : Padding)
  | conv2d (input w : Tensor) (strides : List Nat) (padding : Padding)
  | maxPool (input : Tensor) (poolSize : Nat)
  | dropout (input keepProb : Tensor)
  | upconvConcat (bottom side : Tensor)
  | upconvAdd (bottom side : Tensor)
  | add (a b : Tensor)
  | concatPair (a b : Tensor) (axis : Nat)
  | neg (t : Tensor)
  | relu (t : Tensor)
  | batchNorm (input : Tensor) (axis : Nat) (momentum : ℚ) (training : Tensor) (name : String)
  | resBlock (input : Tensor) (filterSize channelMultiplier depthwiseMultiplier convolutions : Nat)
      (training : Tensor) (activation : String) (batchNorm : Bool)
  | resBlockTiled (input : Tensor) (filterSize channelMultiplier depthwiseMultiplier convolutions : Nat)
      (training : Tensor) (activation : String) (batchNorm : Bool)
deriving DecidableEq, Repr

/-- The contracting loop shared by both builders: apply `step` to the running
bottom tensor `n` times, appending each stage's side output to `outs`. -/
def downPath (step : Tensor → Tensor × Tensor) : Nat → Tensor → List Tensor → Tensor × List Tensor
  | 0, cur, outs => (cur, outs)
  | n + 1, cur, outs =>
    let r := step cur
    downPath step n r.1 (outs ++ [r.2])

/-- The expanding loop shared by both builders: consume the side-output list
head first, merging each element with the running bottom tensor. -/
def upPath (stepU : Tensor → Tensor → Tensor) : List Tensor → Tensor → Tensor
  | [], cur => cur
  | side :: rest, cur => upPath stepU rest (stepU cur side)

/-- `step_down` of the standard builder: conv block (channel multiplier 2),
max pool, dropout; returns (pooled-and-dropped output, pre-pool side output). -/
def unet_step_down (filter_size convolutions : Nat) (padding : Padding) (pool_size : Nat)
    (keep_prob input_ : Tensor) : Tensor × Tensor :=
  let conv_out := Tensor.convBlock input_ filter_size (ConvBlockChannels.channelMultiplier 2)
    convolutions padding
  let pool_out := Tensor.maxPool conv_out pool_size
  let result := Tensor.dropout pool_out keep_prob
  (result, conv_out)

/-- `step_up` of the standard builder: up-convolution/concatenation with the
side input, dropout, conv block with channel multiplier 0.5. -/
def unet_step_up (filter_size convolutions : Nat) (padding : Padding)
    (keep_prob bottom_input side_input : Tensor) : Tensor :=
  let concat_out := Tensor.upconvConcat bottom_input side_input
  let drop_out := Tensor.dropout concat_out keep_prob
  Tensor.convBlock drop_out filter_size (ConvBlockChannels.channelMultiplier (1 / 2))
    convolutions padding

/-- Contracting path of the standard builder: hand-built stage 0 (conv block
with `out_filters = start_filters`), then `depth - 1` `step_down` stages,
collecting side outputs in production order. -/
def unet_contract (start_filters filter_size convolutions depth : Nat) (padding : Padding)
    (pool_size : Nat) (keep_prob network_input : Tensor) : Tensor × List Tensor :=
  let conv_out := Tensor.convBlock network_input filter_size
    (ConvBlockChannels.outFilters start_filters) convolutions padding
  let pool_out := Tensor.maxPool conv_out pool_size
  let current := Tensor.dropout pool_out keep_prob
  downPath (unet_step_down filter_size convolutions padding pool_size keep_prob)
    (depth - 1) current [conv_out]

/-- The side-output list of the standard builder in consumption order: the
production-order list, reversed once before the expanding path runs. -/
def unet_consumed (start_filters filter_size convolutions depth : Nat) (padding : Padding)
    (pool_size : Nat) (keep_prob network_input : Tensor) : List Tensor :=
  (unet_contract start_filters filter_size convolutions depth padding pool_size
    keep_prob network_input).2.reverse

/-- The tensor entering the classification head of the standard builder:
contracting path, bottom conv block (channel multiplier 2), and the expanding
path consuming the reversed side-output list. -/
def unet_current (start_filters filter_size convolutions depth : Nat) (padding : Padding)
    (pool_size : Nat) (keep_prob network_input : Tensor) : Tensor :=
  let cd := unet_contract start_filters filter_size convolutions depth padding pool_size
    keep_prob network_input
  let bottom := Tensor.convBlock cd.1 filter_size (ConvBlockChannels.channelMultiplier 2)
    convolutions padding
  upPath (unet_step_up filter_size convolutions padding keep_prob)
    (unet_consumed start_filters filter_size convolutions depth padding pool_size
      keep_prob network_input) bottom

/-- Classification head of the standard builder: 1x1 convolution with scale
`sqrt(2 / in_filters)`, `VALID` padding, a bias, no nonlinearity, transposed
back to channel-last layout. -/
def unet_classification_head (in_filters out_channels : Nat) (current : Tensor) : Tensor :=
  let w := Tensor.weightVariable [1, 1, in_filters, out_channels]
    (Stddev.sqrt2Over in_filters) "weights"
  let b := Tensor.biasVariable [out_channels, 1, 1] "biases"
  let conv := Tensor.conv2d current w [1, 1, 1, 1] Padding.valid
  Tensor.transpose (Tensor.add conv b) [0, 2, 3, 1]

/-- Result tuple of the standard builder. -/
structure UNetResult where
  inputs : Tensor
  logits : Tensor
  ground_truth : Tensor
  keep_prob : Tensor
deriving DecidableEq, Repr

/-- The standard U-Net builder.  `channelDim` is the shape-inference oracle of
the external engine, supplying `current_tensor.shape.as_list()[1]` for the
classification head. -/
def unet (in_channels out_channels start_filters side_length depth convolutions filter_size : Nat)
    (sparse_labels : Bool) (batch_size : Nat) (channelDim : Tensor → Nat) : UNetResult :=
  let pool_size := 2
  let padding := Padding.same
  let inputs := Tensor.placeholder DType.float32
    [batch_size, side_length, side_length, in_channels] "inputs"
  let ground_truth :=
    if sparse_labels then
      Tensor.placeholder DType.int32 [batch_size, side_length, side_length] "labels"
    else
      Tensor.placeholder DType.float32 [batch_size, side_length, side_length, out_channels] "labels"
  let keep_prob := Tensor.placeholder DType.float32 [] "keep_prob"
  let network_input := Tensor.transpose inputs [0, 3, 1, 2]
  let current := unet_current start_filters filter_size convolutions depth padding pool_size
    keep_prob network_input
  let in_filters := channelDim current
  { inputs := inputs
    logits := unet_classification_head in_filters out_channels current
    ground_truth := ground_truth
    keep_prob := keep_prob }

/-- A chain of `res_block`s with channel multiplier 1, depthwise multiplier 2
and 2 convolutions each, as built by the loops of the parameter-efficient
builder. -/
def resChain (activation : String) (batch_norm : Bool) (training : Tensor)
    (filter_size : Nat) : Nat → Tensor → Tensor
  | 0, t => t
  | n + 1, t =>
    resChain activation batch_norm training filter_size n
      (Tensor.resBlock t filter_size 1 2 2 training activation batch_norm)

/-- `step_down` of the parameter-efficient builder: a channel-doubling
residual block returning its conv output and a tiled copy of the input,
`res_blocks - 1` further residual blocks, an elementwise add of the tiled
input, max pool, and dropout on both outputs. -/
def pe_step_down (activation : String) (batch_norm : Bool) (filter_size res_blocks pool_size : Nat)
    (keep_prob training input_ : Tensor) : Tensor × Tensor :=
  let conv_out0 := Tensor.resBlock input_ filter_size 2 2 2 training activation batch_norm
  let tiled_input := Tensor.resBlockTiled input_ filter_size 2 2 2 training activation batch_norm
  let conv_out := resChain activation batch_norm training filter_size (res_blocks - 1) conv_out0
  let conv_out := Tensor.add conv_out tiled_input
  let pool_out := Tensor.maxPool conv_out pool_size
  (Tensor.dropout pool_out keep_prob, Tensor.dropout conv_out keep_prob)

/-- `step_up` of the parameter-efficient builder: additive up-convolution
merge with the side input, `res_blocks` residual blocks, dropout. -/
def pe_step_up (activation : String) (batch_norm : Bool) (filter_size res_blocks : Nat)
    (keep_prob training bottom_input side_input : Tensor) : Tensor :=
  let added_input := Tensor.upconvAdd bottom_input side_input
  let conv_out := resChain activation batch_norm training filter_size res_blocks added_input
  Tensor.dropout conv_out keep_prob

/-- Hand-unrolled stage 0 of the parameter-efficient builder: manual first
convolution with scale `sqrt(2 / (filter_size^2 * in_filters))`, bias,
optional batch normalization, optional concatenated-ReLU (doubling the
channel count fed to the second convolution), ReLU, second manual
convolution, one residual block, max pool, dropout on both outputs. -/
def pe_step0 (activation : String) (batch_norm : Bool)
    (filter_size in_channels start_filters pool_size : Nat)
    (keep_prob training network_input : Tensor) : Tensor × Tensor :=
  let in_filters := in_channels
  let out_filters := start_filters
  let w := Tensor.weightVariable [filter_size, filter_size, in_filters, out_filters]
    (Stddev.sqrt2Over (filter_size ^ 2 * in_filters)) "weights"
  let out1 := Tensor.conv2d network_input w [1, 1, 1, 1] Padding.same
  let out1 := Tensor.add out1 (Tensor.biasVariable [out_filters, 1, 1] "biases")
  let out1 := if batch_norm then
    Tensor.batchNorm out1 1 (999 / 1000) training "batch_norm" else out1
  let in_filters := out_filters
  let crelu := if activation = "crelu" then
    (Tensor.concatPair out1 (Tensor.neg out1) 1, 2 * in_filters) else (out1, in_filters)
  let out2 := Tensor.relu crelu.1
  let in_filters := crelu.2
  let w2 := Tensor.weightVariable [filter_size, filter_size, in_filters, out_filters]
    (Stddev.sqrt2Over (filter_size ^ 2 * in_filters)) "weights"
  let out3 := Tensor.conv2d out2 w2 [1, 1, 1, 1] Padding.same
  let out3 := Tensor.add out3 (Tensor.biasVariable [out_filters, 1, 1] "biases")
  let conv_out := Tensor.resBlock out3 filter_size 1 2 2 training activation batch_norm
  let pool_out := Tensor.maxPool conv_out pool_size
  (Tensor.dropout pool_out keep_prob, Tensor.dropout conv_out keep_prob)

/-- Bottom stage of the parameter-efficient builder: like `pe_step_down`
without the pooling, returning the dropped-out residual output. -/
def pe_bottom (activation : String) (batch_norm : Bool) (filter_size res_blocks : Nat)
    (keep_prob training bottom_out : Tensor) : Tensor :=
  let conv_out0 := Tensor.resBlock bottom_out filter_size 2 2 2 training activation batch_norm
  let tiled_input := Tensor.resBlockTiled bottom_out filter_size 2 2 2 training activation batch_norm
  let conv_out := resChain activation batch_norm training filter_size (res_blocks - 1) conv_out0
  Tensor.dropout (Tensor.add conv_out tiled_input) keep_prob

/-- Contracting path of the parameter-efficient builder: unrolled stage 0,
then `depth - 1` `pe_step_down` stages, collecting side outputs in
production order. -/
def pe_contract (activation : String) (batch_norm : Bool)
    (filter_size res_blocks depth in_channels start_filters pool_size : Nat)
    (keep_prob training network_input : Tensor) : Tensor × List Tensor :=
  let bs := pe_step0 activation batch_norm filter_size in_channels start_filters pool_size
    keep_prob training network_input
  downPath (pe_step_down activation batch_norm filter_size res_blocks pool_size keep_prob training)
    (depth - 1) bs.1 [bs.2]

/-- The side-output list of the parameter-efficient builder in consumption
order: the production-order list, reversed once. -/
def pe_consumed (activation : String) (batch_norm : Bool)
    (filter_size res_blocks depth in_channels start_filters pool_size : Nat)
    (keep_prob training network_input : Tensor) : List Tensor :=
  (pe_contract activation batch_norm filter_size res_blocks depth in_channels start_filters
    pool_size keep_prob training network_input).2.reverse

/-- Classification head of the parameter-efficient builder: 1x1 convolution
with scale `sqrt(2 / in_filters)`, `SAME` padding, a bias, no nonlinearity,
transposed back to channel-last layout. -/
def pe_classification_head (in_filters out_channels : Nat) (current : Tensor) : Tensor :=
  let w := Tensor.weightVariable [1, 1, in_filters, out_channels]
    (Stddev.sqrt2Over in_filters) "weights"
  let b := Tensor.biasVariable [out_channels, 1, 1] "biases"
  let conv := Tensor.conv2d current w [1, 1, 1, 1] Padding.same
  Tensor.transpose (Tensor.add conv b) [0, 2, 3, 1]

/-- Result tuple of the parameter-efficient builder. -/
structure PEResult where
  inputs : Tensor
  logits : Tensor
  ground_truth : Tensor
  keep_prob : Tensor
  training : Tensor
deriving DecidableEq, Repr

/-- The parameter-efficient U-Net builder.  The activation string is
lowercased and validated before anything is built; an invalid value yields
the error and no graph.  `channelDim` is the shape-inference oracle used for
the classification head. -/
def parameter_efficient (in_channels out_channels start_filters input_side_length
      depth res_blocks filter_size : Nat)
    (sparse_labels : Bool) (batch_size : Nat) (activation : String) (batch_norm : Bool)
    (channelDim : Tensor → Nat) : Except String PEResult :=
  let a := strLower activation
  if a ∈ (["relu", "crelu"] : List String) then
    let inputs := Tensor.placeholder DType.float32
      [batch_size, input_side_length, input_side_length, in_channels] "inputs"
    let ground_truth :=
      if sparse_labels then
        Tensor.placeholder DType.int32 [batch_size, input_side_length, input_side_length] "labels"
      else
        Tensor.placeholder DType.float32
          [batch_size, input_side_length, input_side_length, out_channels] "labels"
    let keep_prob := Tensor.placeholder DType.float32 [] "keep_prob"
    let training := Tensor.placeholder DType.boolT [] "training"
    let network_input := Tensor.transpose inputs [0, 3, 1, 2]
    let cd := pe_contract a batch_norm filter_size res_blocks depth in_channels start_filters 2
      keep_prob training network_input
    let current := pe_bottom a batch_norm filter_size res_blocks keep_prob training cd.1
    let current := upPath (pe_step_up a batch_norm filter_size res_blocks keep_prob training)
      (pe_consumed a batch_norm filter_size res_blocks depth in_channels start_filters 2
        keep_prob training network_input) current
    let in_filters := channelDim current
    Except.ok { inputs := inputs
                logits := pe_classification_head in_filters out_channels current
                ground_truth := ground_truth
                keep_prob := keep_prob
                training := training }
  else
    Except.error "activation must be \"ReLU\" or \"cReLU\"."

/-- The padding modes of all `conv_block` nodes of a graph term, collected
left-to-right. -/
def convBlockPaddings : Tensor → List Padding
  | Tensor.placeholder _ _ _ => []
  | Tensor.transpose t _ => convBlockPaddings t
  | Tensor.weightVariable _ _ _ => []
  | Tensor.biasVariable _ _ => []
  | Tensor.convBlock input _ _ _ padding => convBlockPaddings input ++ [padding]
  | Tensor.conv2d input w _ _ => convBlockPaddings input ++ convBlockPaddings w
  | Tensor.maxPool input _ => convBlockPaddings input
  | Tensor.dropout input keepProb => convBlockPaddings input ++ convBlockPaddings keepProb
  | Tensor.upconvConcat bottom side => convBlockPaddings bottom ++ convBlockPaddings side
  | Tensor.upconvAdd bottom side => convBlockPaddings bottom ++ convBlockPaddings side
  | Tensor.add a b => convBlockPaddings a ++ convBlockPaddings b
  | Tensor.concatPair a b _ => convBlockPaddings a ++ convBlockPaddings b
  | Tensor.neg t => convBlockPaddings t
  | Tensor.relu t => convBlockPaddings t
  | Tensor.batchNorm input _ _ training _ => convBlockPaddings input ++ convBlockPaddings training
  | Tensor.resBlock input _ _ _ _ training _ _ =>
      convBlockPaddings input ++ convBlockPaddings training
  | Tensor.resBlockTiled input _ _ _ _ training _ _ =>
      convBlockPaddings input ++ convBlockPaddings training

/-- The padding modes of all convolution nodes of a graph term (`conv_block`
and raw `conv2d` alike), collected left-to-right. -/
def convPaddings : Tensor → List Padding
  | Tensor.placeholder _ _ _ => []
  | Tensor.transpose t _ => convPaddings t
  | Tensor.weightVariable _ _ _ => []
  | Tensor.biasVariable _ _ => []
  | Tensor.convBlock input _ _ _ padding => convPaddings input ++ [padding]
  | Tensor.conv2d input w _ padding => convPaddings input ++ convPaddings w ++ [padding]
  | Tensor.maxPool input _ => convPaddings input
  | Tensor.dropout input keepProb => convPaddings input ++ convPaddings keepProb
  | Tensor.upconvConcat bottom side => convPaddings bottom ++ convPaddings side
  | Tensor.upconvAdd bottom side => convPaddings bottom ++ convPaddings side
  | Tensor.add a b => convPaddings a ++ convPaddings b
  | Tensor.concatPair a b _ => convPaddings a ++ convPaddings b
  | Tensor.neg t => convPaddings t
  | Tensor.relu t => convPaddings t
  | Tensor.batchNorm input _ _ training _ => convPaddings input ++ convPaddings training
  | Tensor.resBlock input _ _ _ _ training _ _ => convPaddings input ++ convPaddings training
  | Tensor.resBlockTiled input _ _ _ _ training _ _ => convPaddings input ++ convPaddings training

/-- Every `conv_block` node of the graph term uses `SAME` padding. -/
def allConvBlocksSame (t : Tensor) : Bool :=
  (convBlockPaddings t).all (fun pd => pd == Padding.same)

/-- The spatial side length recorded in a placeholder's shape (index 1 of the
shape list, the height for both `NHWC` and label layouts). -/
def placeholderSpatialSide : Tensor → Option Nat
  | Tensor.placeholder _ shape _ => shape[1]?
  | _ => none

/-- Erase the padding attribute of every convolution node (rewriting it to
`SAME`), leaving everything else intact. -/
def erasePadding : Tensor → Tensor
  | Tensor.placeholder d s n => Tensor.placeholder d s n
  | Tensor.transpose t p => Tensor.transpose (erasePadding t) p
  | Tensor.weightVariable s st n => Tensor.weightVariable s st n
  | Tensor.biasVariable s n => Tensor.biasVariable s n
  | Tensor.convBlock input fs ch cv _ =>
      Tensor.convBlock (erasePadding input) fs ch cv Padding.same
  | Tensor.conv2d input w st _ =>
      Tensor.conv2d (erasePadding input) (erasePadding w) st Padding.same
  | Tensor.maxPool input p => Tensor.maxPool (erasePadding input) p
  | Tensor.dropout input keepProb => Tensor.dropout (erasePadding input) (erasePadding keepProb)
  | Tensor.upconvConcat bottom side =>
      Tensor.upconvConcat (erasePadding bottom) (erasePadding side)
  | Tensor.upconvAdd bottom side => Tensor.upconvAdd (erasePadding bottom) (erasePadding side)
  | Tensor.add a b => Tensor.add (erasePadding a) (erasePadding b)
  | Tensor.concatPair a b ax => Tensor.concatPair (erasePadding a) (erasePadding b) ax
  | Tensor.neg t => Tensor.neg (erasePadding t)
  | Tensor.relu t => Tensor.relu (erasePadding t)
  | Tensor.batchNorm input ax m training n =>
      Tensor.batchNorm (erasePadding input) ax m (erasePadding training) n
  | Tensor.resBlock input fs cm dm cv training a bn =>
      Tensor.resBlock (erasePadding input) fs cm dm cv (erasePadding training) a bn
  | Tensor.resBlockTiled input fs cm dm cv training a bn =>
      Tensor.resBlockTiled (erasePadding input) fs cm dm cv (erasePadding training) a bn

/-- A successful convolution loop subtracts `n * (filter_size - 1)` in total. -/
theorem convDown_ok (f : Int) (mk : Nat → UNetError) :
    ∀ (n : Nat) (s : Int) (j : Nat) (t : Int),
      convDown f mk n s j = Except.ok t → t = s - (n : Int) * (f - 1) := by
  intro n
  induction n with
  | zero =>
    intro s j t h
    simp only [convDown, Except.ok.injEq] at h
    subst h
    simp
  | succ n ih =>
    intro s j t h
    simp only [convDown] at h
    by_cases hc : s - (f - 1) < 0
    · simp [hc] at h
    · rw [if_neg hc] at h
      have h2 := ih _ _ _ h
      have h3 : ((n : Int) + 1) * (f - 1) = (n : Int) * (f - 1) + (f - 1) := by ring
      push_cast
      rw [h3]
      linarith

/-- A successful prefix of the contracting loop composes with the rest. -/
theorem contractLoop_append (c : Nat) (f p : Int) :
    ∀ (n : Nat) (s : Int) (i : Nat) (t : Int),
      contractLoop c f p n s i = Except.ok t →
      ∀ m : Nat, contractLoop c f p (n + m) s i = contractLoop c f p m t (i + n) := by
  intro n
  induction n with
  | zero =>
    intro s i t h m
    simp only [contractLoop, Except.ok.injEq] at h
    subst h
    simp
  | succ n ih =>
    intro s i t h m
    rw [show n + 1 + m = (n + m) + 1 from by omega]
    simp only [contractLoop] at h ⊢
    cases hcd : convDown f (fun j => UNetError.tooSmallContracting i j) c s 0 with
    | error e => rw [hcd] at h; simp at h
    | ok s' =>
      rw [hcd] at h
      dsimp only at h ⊢
      by_cases hp : p = 0
      · simp [hp] at h
      · rw [if_neg hp] at h ⊢
        by_cases hdv : s' % p ≠ 0
        · rw [if_pos hdv] at h; simp at h
        · rw [if_neg hdv] at h ⊢
          rw [show i + (n + 1) = (i + 1) + n from by omega]
          exact ih _ _ _ h m

/-- A successful contracting loop computes the iterate of
"subtract `convolutions * (filter_size - 1)`, then floor-divide". -/
theorem contractLoop_ok (c : Nat) (f p : Int) :
    ∀ (n : Nat) (s : Int) (i : Nat) (t : Int),
      contractLoop c f p n s i = Except.ok t →
      t = (fun x => (x - (c : Int) * (f - 1)).fdiv p)^[n] s := by
  intro n
  induction n with
  | zero =>
    intro s i t h
    simp only [contractLoop, Except.ok.injEq] at h
    subst h
    simp
  | succ n ih =>
    intro s i t h
    simp only [contractLoop] at h
    cases hcd : convDown f (fun j => UNetError.tooSmallContracting i j) c s 0 with
    | error e => rw [hcd] at h; simp at h
    | ok s' =>
      rw [hcd] at h
      dsimp only at h
      by_cases hp : p = 0
      · simp [hp] at h
      · rw [if_neg hp] at h
        by_cases hdv : s' % p ≠ 0
        · rw [if_pos hdv] at h; simp at h
        · rw [if_neg hdv] at h
          have hv := convDown_ok f _ c s 0 s' hcd
          rw [Function.iterate_succ_apply, ← hv]
          exact ih _ _ _ h

/-- Two successful runs of the contracting loop preserve the initial
difference up to the accumulated division factor `pool_size ^ n`. -/
theorem contractLoop_sub (c : Nat) (f p : Int) :
    ∀ (n : Nat) (s₁ s₂ : Int) (i₁ i₂ : Nat) (t₁ t₂ : Int),
      contractLoop c f p n s₁ i₁ = Except.ok t₁ →
      contractLoop c f p n s₂ i₂ = Except.ok t₂ →
      p ^ n * (t₂ - t₁) = s₂ - s₁ := by
  intro n
  induction n with
  | zero =>
    intro s₁ s₂ i₁ i₂ t₁ t₂ h₁ h₂
    simp only [contractLoop, Except.ok.injEq] at h₁ h₂
    subst h₁
    subst h₂
    ring
  | succ n ih =>
    intro s₁ s₂ i₁ i₂ t₁ t₂ h₁ h₂
    simp only [contractLoop] at h₁ h₂
    cases hcd₁ : convDown f (fun j => UNetError.tooSmallContracting i₁ j) c s₁ 0 with
    | error e => rw [hcd₁] at h₁; simp at h₁
    | ok u₁ =>
      rw [hcd₁] at h₁
      dsimp only at h₁
      cases hcd₂ : convDown f (fun j => UNetError.tooSmallContracting i₂ j) c s₂ 0 with
      | error e => rw [hcd₂] at h₂; simp at h₂
      | ok u₂ =>
        rw [hcd₂] at h₂
        dsimp only at h₂
        by_cases hp : p = 0
        · simp [hp] at h₁
        · rw [if_neg hp] at h₁ h₂
          by_cases hdv₁ : u₁ % p ≠ 0
          · rw [if_pos hdv₁] at h₁; simp at h₁
          · rw [if_neg hdv₁] at h₁
            by_cases hdv₂ : u₂ % p ≠ 0
            · rw [if_pos hdv₂] at h₂; simp at h₂
            · rw [if_neg hdv₂] at h₂
              have e₁ := convDown_ok f _ c s₁ 0 u₁ hcd₁
              have e₂ := convDown_ok f _ c s₂ 0 u₂ hcd₂
              have d₁ : p ∣ u₁ := Int.dvd_of_emod_eq_zero (not_not.mp hdv₁)
              have d₂ : p ∣ u₂ := Int.dvd_of_emod_eq_zero (not_not.mp hdv₂)
              have q₁ : p * (u₁.fdiv p) = u₁ := by
                rw [Int.fdiv_eq_ediv_of_dvd d₁]
                exact Int.mul_ediv_cancel' d₁
              have q₂ : p * (u₂.fdiv p) = u₂ := by
                rw [Int.fdiv_eq_ediv_of_dvd d₂]
                exact Int.mul_ediv_cancel' d₂
              have hih := ih _ _ _ _ _ _ h₁ h₂
              have hpow : p ^ (n + 1) * (t₂ - t₁) = p * (p ^ n * (t₂ - t₁)) := by ring
              rw [hpow, hih]
              have hdist : p * (u₂.fdiv p - u₁.fdiv p) =
                  p * (u₂.fdiv p) - p * (u₁.fdiv p) := by ring
              rw [hdist, q₁, q₂, e₁, e₂]
              ring

/-- The expanding loop is the iterate of "multiply then subtract". -/
theorem expandLoop_eq_iterate (c : Nat) (f p : Int) :
    ∀ (n : Nat) (s : Int),
      expandLoop c f p n s = (fun x => x * p - (c : Int) * (f - 1))^[n] s := by
  intro n
  induction n with
  | zero => intro s; simp [expandLoop]
  | succ n ih =>
    intro s
    simp only [expandLoop, Function.iterate_succ_apply]
    exact ih _

/-- The expanding loop scales differences by `pool_size ^ n`. -/
theorem expandLoop_sub (c : Nat) (f p : Int) :
    ∀ (n : Nat) (s₁ s₂ : Int),
      expandLoop c f p n s₂ - expandLoop c f p n s₁ = p ^ n * (s₂ - s₁) := by
  intro n
  induction n with
  | zero => intro s₁ s₂; simp [expandLoop]
  | succ n ih =>
    intro s₁ s₂
    simp only [expandLoop]
    rw [ih]
    ring

/-- C1: for every `depth ≥ 1` and inputs on which it does not raise,
`get_output_side_length` returns exactly the value described by the
specification: `depth - 1` contracting stages (subtract
`convolutions * (filter_size - 1)` one convolution at a time, then divide
exactly by `pool_size`), one bottom-stage subtraction, then `depth - 1`
expanding stages (multiply by `pool_size`, then subtract
`convolutions * (filter_size - 1)`), with no divisibility check in the
expanding phase. -/
theorem get_output_side_length_matches_spec (s : Int) (d c : Nat) (f p : Int) (r : Int)
    (_hd : 1 ≤ d) (h : get_output_side_length s d c f p = Except.ok r) :
    r = spec_output_side_length s d c f p := by
  unfold get_output_side_length at h
  cases hcl : contractLoop c f p (d - 1) s 0 with
  | error e => rw [hcl] at h; simp at h
  | ok t =>
    rw [hcl] at h
    dsimp only at h
    cases hcb : convDown f (fun j => UNetError.tooSmallBottom j) c t 0 with
    | error e => rw [hcb] at h; simp at h
    | ok u =>
      rw [hcb] at h
      dsimp only at h
      simp only [Except.ok.injEq] at h
      subst h
      have ht := contractLoop_ok c f p (d - 1) s 0 t hcl
      have hu := convDown_ok f _ c t 0 u hcb
      rw [expandLoop_eq_iterate]
      unfold spec_output_side_length
      rw [hu, ht]

/-- Witness for C1 at the concrete feasible input `(12, 2, 1, 3, 2)`, where
the calculator returns 4. -/
theorem get_output_side_length_matches_spec_witness :
    (4 : Int) = spec_output_side_length 12 2 1 3 2 :=
  get_output_side_length_matches_spec 12 2 1 3 2 4 (by decide) rfl

/-- C4: `get_output_side_length 10 4 2 3 2` raises, and the error names the
contracting stage reached after 1 max-pooling layer together with
convolution index 2, the point where the side length first goes negative. -/
theorem get_output_side_length_infeasible_10_4_2_3_2 :
    get_output_side_length 10 4 2 3 2 =
      Except.error (UNetError.tooSmallContracting 1 2) := rfl

/-- C5: if the contracting path reaches stage `k` (0-based) with side length
`u`, stage `k`'s convolutions complete with value `v`, `v` is not divisible
by the (nonzero) pool size, and `k` is a proper contracting stage, then
`get_output_side_length` raises the divisibility error reporting pooling
layer `k + 1` — the first offending contracting stage — together with the
current side-length value `v`. -/
theorem get_output_side_length_divisibility_error (s : Int) (d c : Nat) (f p : Int)
    (k : Nat) (u v : Int) (hp : p ≠ 0) (hk : k < d - 1)
    (hpre : contractLoop c f p k s 0 = Except.ok u)
    (hconv : convDown f (fun j => UNetError.tooSmallContracting k j) c u 0 = Except.ok v)
    (hdiv : v % p ≠ 0) :
    get_output_side_length s d c f p =
      Except.error (UNetError.notDivisible p v (k + 1)) := by
  obtain ⟨m, hm⟩ : ∃ m, d - 1 = k + (m + 1) := ⟨d - 1 - k - 1, by omega⟩
  have hrest : contractLoop c f p (m + 1) u k =
      Except.error (UNetError.notDivisible p v (k + 1)) := by
    simp only [contractLoop]
    rw [hconv]
    dsimp only
    rw [if_neg hp, if_pos hdiv]
  unfold get_output_side_length
  rw [hm, contractLoop_append c f p k s 0 u hpre (m + 1), Nat.zero_add, hrest]

/-- Witness for C5: with `side_length = 14`, `depth = 2`, one convolution of
filter size 2 and pool size 2, stage 0 ends at 13, which is odd, and the
calculator reports pooling layer 1 with value 13. -/
theorem get_output_side_length_divisibility_error_witness :
    get_output_side_length 14 2 1 2 2 =
      Except.error (UNetError.notDivisible 2 13 1) :=
  get_output_side_length_divisibility_error 14 2 1 2 2 0 14 13
    (by decide) (by decide) rfl rfl (by decide)

/-- Two successful runs of the whole shape calculator preserve the difference
of their inputs exactly: the `depth - 1` divisions and the `depth - 1`
multiplications by `pool_size` cancel. -/
theorem get_output_side_length_sub (d c : Nat) (f p : Int) (s₁ s₂ r₁ r₂ : Int)
    (h₁ : get_output_side_length s₁ d c f p = Except.ok r₁)
    (h₂ : get_output_side_length s₂ d c f p = Except.ok r₂) :
    r₂ - r₁ = s₂ - s₁ := by
  unfold get_output_side_length at h₁ h₂
  cases hcl₁ : contractLoop c f p (d - 1) s₁ 0 with
  | error e => rw [hcl₁] at h₁; simp at h₁
  | ok t₁ =>
    rw [hcl₁] at h₁
    dsimp only at h₁
    cases hcl₂ : contractLoop c f p (d - 1) s₂ 0 with
    | error e => rw [hcl₂] at h₂; simp at h₂
    | ok t₂ =>
      rw [hcl₂] at h₂
      dsimp only at h₂
      cases hcb₁ : convDown f (fun j => UNetError.tooSmallBottom j) c t₁ 0 with
      | error e => rw [hcb₁] at h₁; simp at h₁
      | ok u₁ =>
        rw [hcb₁] at h₁
        dsimp only at h₁
        cases hcb₂ : convDown f (fun j => UNetError.tooSmallBottom j) c t₂ 0 with
        | error e => rw [hcb₂] at h₂; simp at h₂
        | ok u₂ =>
          rw [hcb₂] at h₂
          dsimp only at h₂
          simp only [Except.ok.injEq] at h₁ h₂
          subst h₁
          subst h₂
          have hsub := contractLoop_sub c f p (d - 1) s₁ s₂ 0 0 t₁ t₂ hcl₁ hcl₂
          have e₁ := convDown_ok f _ c t₁ 0 u₁ hcb₁
          have e₂ := convDown_ok f _ c t₂ 0 u₂ hcb₂
          rw [expandLoop_sub c f p (d - 1) u₁ u₂, e₁, e₂]
          have hcancel : (t₂ - (c : Int) * (f - 1)) - (t₁ - (c : Int) * (f - 1)) = t₂ - t₁ := by
            ring
          rw [hcancel, hsub]

/-- C7: with `depth`, `convolutions`, `filter_size` and `pool_size` fixed, on
any two feasible side lengths `s₁ ≤ s₂` the computed output sizes satisfy
`r₁ ≤ r₂`: increasing the input side length never decreases the output. -/
theorem get_output_side_length_mono (d c : Nat) (f p : Int) (s₁ s₂ r₁ r₂ : Int)
    (hs : s₁ ≤ s₂)
    (h₁ : get_output_side_length s₁ d c f p = Except.ok r₁)
    (h₂ : get_output_side_length s₂ d c f p = Except.ok r₂) :
    r₁ ≤ r₂ := by
  have := get_output_side_length_sub d c f p s₁ s₂ r₁ r₂ h₁ h₂
  omega

/-- Witness for C7 at side lengths 12 ≤ 14 with `(2, 1, 3, 2)`. -/
theorem get_output_side_length_mono_witness :
    get_output_side_length 12 2 1 3 2 = Except.ok 4 ∧
      get_output_side_length 14 2 1 3 2 = Except.ok 6 ∧ (4 : Int) ≤ 6 :=
  ⟨rfl, rfl, get_output_side_length_mono 2 1 3 2 12 14 4 6 (by decide) rfl rfl⟩

/-- C10: `get_output_side_length 6 2 1 3 2` raises no error yet returns the
negative value `-2`: the side length reaches exactly 0 going into the bottom
stage (passing the strict `< 0` checks), and the expanding loop, which
performs no negativity check, drives it to `-2`. -/
theorem get_output_side_length_negative_result :
    get_output_side_length 6 2 1 3 2 = Except.ok (-2) ∧ ((-2 : Int) < 0) :=
  ⟨rfl, by decide⟩

/-- C3: for every activation string whose lowercase form is not `"relu"` or
`"crelu"`, the parameter-efficient builder fails with the descriptive error
and builds nothing (no placeholder or graph node appears in the result); for
any casing whose lowercase form is `"crelu"` (resp. `"relu"`), construction
proceeds identically to the lowercase spelling. -/
theorem parameter_efficient_activation_validation
    (in_channels out_channels start_filters input_side_length depth res_blocks filter_size : Nat)
    (sparse_labels : Bool) (batch_size : Nat) (activation : String) (batch_norm : Bool)
    (channelDim : Tensor → Nat) :
    (strLower activation ∉ (["relu", "crelu"] : List String) →
      parameter_efficient in_channels out_channels start_filters input_side_length depth
        res_blocks filter_size sparse_labels batch_size activation batch_norm channelDim =
      Except.error "activation must be \"ReLU\" or \"cReLU\".") ∧
    (strLower activation = "crelu" →
      parameter_efficient in_channels out_channels start_filters input_side_length depth
        res_blocks filter_size sparse_labels batch_size activation batch_norm channelDim =
      parameter_efficient in_channels out_channels start_filters input_side_length depth
        res_blocks filter_size sparse_labels batch_size "crelu" batch_norm channelDim) ∧
    (strLower activation = "relu" →
      parameter_efficient in_channels out_channels start_filters input_side_length depth
        res_blocks filter_size sparse_labels batch_size activation batch_norm channelDim =
      parameter_efficient in_channels out_channels start_filters input_side_length depth
        res_blocks filter_size sparse_labels batch_size "relu" batch_norm channelDim) := by
  refine ⟨fun h => ?_, fun h => ?_, fun h => ?_⟩
  · simp only [parameter_efficient]
    rw [if_neg h]
  · have h2 : strLower "crelu" = "crelu" := rfl
    simp only [parameter_efficient, h, h2]
  · have h2 : strLower "relu" = "relu" := rfl
    simp only [parameter_efficient, h, h2]

/-- Witness for C3: `"sigmoid"` fails with the error, `"CRELU"` builds the
same graph as `"crelu"`. -/
theorem parameter_efficient_activation_validation_witness :
    (parameter_efficient 1 2 64 256 4 2 3 true 1 "sigmoid" true (fun _ => 64) =
      Except.error "activation must be \"ReLU\" or \"cReLU\".") ∧
    (parameter_efficient 1 2 64 256 4 2 3 true 1 "CRELU" true (fun _ => 64) =
      parameter_efficient 1 2 64 256 4 2 3 true 1 "crelu" true (fun _ => 64)) :=
  ⟨(parameter_efficient_activation_validation 1 2 64 256 4 2 3 true 1 "sigmoid" true
      (fun _ => 64)).1 (by decide),
   (parameter_efficient_activation_validation 1 2 64 256 4 2 3 true 1 "CRELU" true
      (fun _ => 64)).2.1 (by decide)⟩

/-- `downPath` appends exactly one side output per stage. -/
theorem downPath_length (step : Tensor → Tensor × Tensor) :
    ∀ (n : Nat) (cur : Tensor) (outs : List Tensor),
      (downPath step n cur outs).2.length = outs.length + n := by
  intro n
  induction n with
  | zero => intro cur outs; simp [downPath]
  | succ n ih =>
    intro cur outs
    simp only [downPath]
    rw [ih]
    simp only [List.length_append, List.length_singleton]
    omega

/-- The standard builder collects one side output per contracting stage. -/
theorem unet_contract_length (start_filters filter_size convolutions depth : Nat)
    (padding : Padding) (pool_size : Nat) (keep_prob network_input : Tensor)
    (hd : 1 ≤ depth) :
    (unet_contract start_filters filter_size convolutions depth padding pool_size
      keep_prob network_input).2.length = depth := by
  unfold unet_contract
  rw [downPath_length]
  simp only [List.length_singleton]
  omega

/-- The parameter-efficient builder collects one side output per contracting
stage. -/
theorem pe_contract_length (activation : String) (batch_norm : Bool)
    (filter_size res_blocks depth in_channels start_filters pool_size : Nat)
    (keep_prob training network_input : Tensor) (hd : 1 ≤ depth) :
    (pe_contract activation batch_norm filter_size res_blocks depth in_channels start_filters
      pool_size keep_prob training network_input).2.length = depth := by
  unfold pe_contract
  rw [downPath_length]
  simp only [List.length_singleton]
  omega

/-- C6: for every depth ≥ 1, both builders collect exactly `depth` side
outputs, one per contracting stage in production order, and the list the
expanding path consumes (the production list reversed once) pairs its `i`-th
element — the one consumed by expanding iteration `i` — with the side output
produced by contracting stage `depth - 1 - i`. -/
theorem skip_pairing (start_filters filter_size convolutions depth : Nat) (padding : Padding)
    (pool_size : Nat) (keep_prob network_input : Tensor) (activation : String)
    (batch_norm : Bool) (res_blocks in_channels : Nat) (training : Tensor)
    (hd : 1 ≤ depth) :
    ((unet_contract start_filters filter_size convolutions depth padding pool_size
        keep_prob network_input).2.length = depth ∧
      ∀ i, i < depth →
        (unet_consumed start_filters filter_size convolutions depth padding pool_size
          keep_prob network_input)[i]? =
        (unet_contract start_filters filter_size convolutions depth padding pool_size
          keep_prob network_input).2[depth - 1 - i]?) ∧
    ((pe_contract activation batch_norm filter_size res_blocks depth in_channels start_filters
        pool_size keep_prob training network_input).2.length = depth ∧
      ∀ i, i < depth →
        (pe_consumed activation batch_norm filter_size res_blocks depth in_channels
          start_filters pool_size keep_prob training network_input)[i]? =
        (pe_contract activation batch_norm filter_size res_blocks depth in_channels
          start_filters pool_size keep_prob training network_input).2[depth - 1 - i]?) := by
  have hl1 := unet_contract_length start_filters filter_size convolutions depth padding
    pool_size keep_prob network_input hd
  have hl2 := pe_contract_length activation batch_norm filter_size res_blocks depth
    in_channels start_filters pool_size keep_prob training network_input hd
  refine ⟨⟨hl1, fun i hi => ?_⟩, ⟨hl2, fun i hi => ?_⟩⟩
  · unfold unet_consumed
    rw [List.getElem?_reverse (by rw [hl1]; omega), hl1]
  · unfold pe_consumed
    rw [List.getElem?_reverse (by rw [hl2]; omega), hl2]

/-- Witness for C6 at depth 2 with concrete placeholder inputs: both builders
collect 2 side outputs and the first consumed side output is the one the last
contracting stage produced. -/
theorem skip_pairing_witness :
    (unet_contract 64 3 2 2 Padding.same 2 (Tensor.placeholder DType.float32 [] "keep_prob")
      (Tensor.placeholder DType.float32 [1, 16, 16, 1] "inputs")).2.length = 2 ∧
    (unet_consumed 64 3 2 2 Padding.same 2 (Tensor.placeholder DType.float32 [] "keep_prob")
      (Tensor.placeholder DType.float32 [1, 16, 16, 1] "inputs"))[0]? =
    (unet_contract 64 3 2 2 Padding.same 2 (Tensor.placeholder DType.float32 [] "keep_prob")
      (Tensor.placeholder DType.float32 [1, 16, 16, 1] "inputs")).2[1]? ∧
    (pe_contract "crelu" true 3 2 2 1 64 2 (Tensor.placeholder DType.float32 [] "keep_prob")
      (Tensor.placeholder DType.boolT [] "training")
      (Tensor.placeholder DType.float32 [1, 16, 16, 1] "inputs")).2.length = 2 :=
  ⟨(skip_pairing 64 3 2 2 Padding.same 2 (Tensor.placeholder DType.float32 [] "keep_prob")
      (Tensor.placeholder DType.float32 [1, 16, 16, 1] "inputs") "crelu" true 2 1
      (Tensor.placeholder DType.boolT [] "training") (by decide)).1.1,
   (skip_pairing 64 3 2 2 Padding.same 2 (Tensor.placeholder DType.float32 [] "keep_prob")
      (Tensor.placeholder DType.float32 [1, 16, 16, 1] "inputs") "crelu" true 2 1
      (Tensor.placeholder DType.boolT [] "training") (by decide)).1.2 0 (by decide),
   (skip_pairing 64 3 2 2 Padding.same 2 (Tensor.placeholder DType.float32 [] "keep_prob")
      (Tensor.placeholder DType.float32 [1, 16, 16, 1] "inputs") "crelu" true 2 1
      (Tensor.placeholder DType.boolT [] "training") (by decide)).2.1⟩

/-- `downPath` preserves any predicate preserved by its step function. -/
theorem downPath_preserve (P : Tensor → Prop) (step : Tensor → Tensor × Tensor)
    (hstep : ∀ t, P t → P (step t).1 ∧ P (step t).2) :
    ∀ (n : Nat) (cur : Tensor) (outs : List Tensor),
      P cur → (∀ x ∈ outs, P x) →
      P (downPath step n cur outs).1 ∧ ∀ x ∈ (downPath step n cur outs).2, P x := by
  intro n
  induction n with
  | zero =>
    intro cur outs hc ho
    exact ⟨hc, ho⟩
  | succ n ih =>
    intro cur outs hc ho
    simp only [downPath]
    apply ih
    · exact (hstep cur hc).1
    · intro x hx
      rcases List.mem_append.mp hx with h | h
      · exact ho x h
      · rw [List.mem_singleton.mp h]
        exact (hstep cur hc).2

/-- `upPath` preserves any predicate preserved by its step function. -/
theorem upPath_preserve (P : Tensor → Prop) (stepU : Tensor → Tensor → Tensor)
    (hstep : ∀ a b, P a → P b → P (stepU a b)) :
    ∀ (l : List Tensor) (cur : Tensor),
      P cur → (∀ x ∈ l, P x) → P (upPath stepU l cur) := by
  intro l
  induction l with
  | nil => intro cur hc _; exact hc
  | cons side rest ih =>
    intro cur hc hl
    simp only [upPath]
    apply ih
    · exact hstep cur side hc (hl side (by simp))
    · intro x hx
      exact hl x (by simp [hx])

/-- A `SAME`-padded `step_down` of the standard builder keeps every
`conv_block` padding equal to `SAME`. -/
theorem unet_step_down_same (filter_size convolutions pool_size : Nat) (keep_prob t : Tensor)
    (hk : ∀ pd ∈ convBlockPaddings keep_prob, pd = Padding.same)
    (ht : ∀ pd ∈ convBlockPaddings t, pd = Padding.same) :
    (∀ pd ∈ convBlockPaddings
        (unet_step_down filter_size convolutions Padding.same pool_size keep_prob t).1,
      pd = Padding.same) ∧
    (∀ pd ∈ convBlockPaddings
        (unet_step_down filter_size convolutions Padding.same pool_size keep_prob t).2,
      pd = Padding.same) := by
  unfold unet_step_down
  constructor
  · intro pd hpd
    simp only [convBlockPaddings, List.mem_append, List.mem_singleton] at hpd
    rcases hpd with (h | h) | h
    · exact ht pd h
    · exact h
    · exact hk pd h
  · intro pd hpd
    simp only [convBlockPaddings, List.mem_append, List.mem_singleton] at hpd
    rcases hpd with h | h
    · exact ht pd h
    · exact h

/-- A `SAME`-padded `step_up` of the standard builder keeps every
`conv_block` padding equal to `SAME`. -/
theorem unet_step_up_same (filter_size convolutions : Nat) (keep_prob a b : Tensor)
    (hk : ∀ pd ∈ convBlockPaddings keep_prob, pd = Padding.same)
    (ha : ∀ pd ∈ convBlockPaddings a, pd = Padding.same)
    (hb : ∀ pd ∈ convBlockPaddings b, pd = Padding.same) :
    ∀ pd ∈ convBlockPaddings
      (unet_step_up filter_size convolutions Padding.same keep_prob a b),
      pd = Padding.same := by
  unfold unet_step_up
  intro pd hpd
  simp only [convBlockPaddings, List.mem_append, List.mem_singleton] at hpd
  rcases hpd with ((h | h) | h) | h
  · exact ha pd h
  · exact hb pd h
  · exact hk pd h
  · exact h

/-- Every `conv_block` of the tensor entering the standard builder's
classification head uses `SAME` padding, whenever the dropout control and the
network input contain only `SAME` conv blocks. -/
theorem unet_current_same (start_filters filter_size convolutions depth pool_size : Nat)
    (keep_prob network_input : Tensor)
    (hk : ∀ pd ∈ convBlockPaddings keep_prob, pd = Padding.same)
    (hn : ∀ pd ∈ convBlockPaddings network_input, pd = Padding.same) :
    ∀ pd ∈ convBlockPaddings
      (unet_current start_filters filter_size convolutions depth Padding.same pool_size
        keep_prob network_input),
      pd = Padding.same := by
  have hstage0 : ∀ pd ∈ convBlockPaddings
      (Tensor.dropout (Tensor.maxPool (Tensor.convBlock network_input filter_size
        (ConvBlockChannels.outFilters start_filters) convolutions Padding.same) pool_size)
        keep_prob), pd = Padding.same := by
    intro pd hpd
    simp only [convBlockPaddings, List.mem_append, List.mem_singleton] at hpd
    rcases hpd with (h | h) | h
    · exact hn pd h
    · exact h
    · exact hk pd h
  have hconv0 : ∀ pd ∈ convBlockPaddings
      (Tensor.convBlock network_input filter_size
        (ConvBlockChannels.outFilters start_filters) convolutions Padding.same),
      pd = Padding.same := by
    intro pd hpd
    simp only [convBlockPaddings, List.mem_append, List.mem_singleton] at hpd
    rcases hpd with h | h
    · exact hn pd h
    · exact h
  have hcd := downPath_preserve (fun t => ∀ pd ∈ convBlockPaddings t, pd = Padding.same)
    (unet_step_down filter_size convolutions Padding.same pool_size keep_prob)
    (fun t ht => unet_step_down_same filter_size convolutions pool_size keep_prob t hk ht)
    (depth - 1)
    (Tensor.dropout (Tensor.maxPool (Tensor.convBlock network_input filter_size
      (ConvBlockChannels.outFilters start_filters) convolutions Padding.same) pool_size)
      keep_prob)
    [Tensor.convBlock network_input filter_size
      (ConvBlockChannels.outFilters start_filters) convolutions Padding.same]
    hstage0
    (by intro x hx; rw [List.mem_singleton.mp hx]; exact hconv0)
  unfold unet_current
  apply upPath_preserve (fun t => ∀ pd ∈ convBlockPaddings t, pd = Padding.same)
    (unet_step_up filter_size convolutions Padding.same keep_prob)
    (fun a b ha hb => unet_step_up_same filter_size convolutions keep_prob a b hk ha hb)
  · intro pd hpd
    simp only [convBlockPaddings, List.mem_append, List.mem_singleton] at hpd
    rcases hpd with h | h
    · exact hcd.1 pd h
    · exact h
  · intro x hx
    unfold unet_consumed at hx
    exact hcd.2 x (List.mem_reverse.mp hx)

/-- Counterexample to C2 as stated: the standard builder's graph contains a
`SAME`-padded convolution (already at depth 1), so not every convolution it
builds uses `VALID` (unpadded) semantics. -/
theorem unet_contains_same_padding :
    Padding.same ∈ convPaddings ((unet 1 2 64 16 1 1 3 true 1 (fun _ => 64)).logits) := by
  decide

/-- C2 (amended): every `conv_block` the standard builder creates uses `SAME`
(padded) convolution semantics — only the final 1x1 classification
convolution is built with `VALID` padding, which at filter size 1 does not
reduce the spatial side length. -/
theorem unet_conv_blocks_all_same (in_channels out_channels start_filters side_length depth
    convolutions filter_size : Nat) (sparse_labels : Bool) (batch_size : Nat)
    (channelDim : Tensor → Nat) :
    allConvBlocksSame ((unet in_channels out_channels start_filters side_length depth
      convolutions filter_size sparse_labels batch_size channelDim).logits) = true ∧
    ∃ cur w b, (unet in_channels out_channels start_filters side_length depth convolutions
      filter_size sparse_labels batch_size channelDim).logits =
      Tensor.transpose (Tensor.add (Tensor.conv2d cur w [1, 1, 1, 1] Padding.valid) b)
        [0, 2, 3, 1] := by
  constructor
  · have hcur := unet_current_same start_filters filter_size convolutions depth 2
      (Tensor.placeholder DType.float32 [] "keep_prob")
      (Tensor.transpose (Tensor.placeholder DType.float32
        [batch_size, side_length, side_length, in_channels] "inputs") [0, 3, 1, 2])
      (by intro pd hpd; simp [convBlockPaddings] at hpd)
      (by intro pd hpd; simp [convBlockPaddings] at hpd)
    rw [allConvBlocksSame, List.all_eq_true]
    intro pd hpd
    rw [beq_iff_eq]
    revert hpd
    show pd ∈ convBlockPaddings (unet_classification_head _ out_channels _) → pd = Padding.same
    unfold unet_classification_head
    intro hpd
    simp only [convBlockPaddings, List.mem_append, List.mem_singleton] at hpd
    rcases hpd with (h | h) | h
    · exact hcur pd h
    · simp [convBlockPaddings] at h
    · simp [convBlockPaddings] at h
  · exact ⟨_, _, _, rfl⟩

/-- Counterexample to C8 as stated: at the feasible input side length 572
(depth 4, 2 convolutions of filter size 3, pool size 2), the shape calculator
returns 484, yet the ground-truth placeholder of the standard builder is
sized by the input side length 572, not by the calculator's output. -/
theorem unet_ground_truth_not_calculator_output :
    placeholderSpatialSide ((unet 1 2 64 572 4 2 3 true 1 (fun _ => 64)).ground_truth) =
      some 572 ∧
    get_output_side_length 572 4 2 3 2 = Except.ok 484 ∧ (572 : Nat) ≠ 484 :=
  ⟨rfl, rfl, by decide⟩

/-- C8 (amended): the standard builder sizes the ground-truth placeholder by
the input side length itself (its convolutions are `SAME`-padded), not by the
shape calculator's output. -/
theorem unet_ground_truth_side (in_channels out_channels start_filters side_length depth
    convolutions filter_size : Nat) (sparse_labels : Bool) (batch_size : Nat)
    (channelDim : Tensor → Nat) :
    placeholderSpatialSide ((unet in_channels out_channels start_filters side_length depth
      convolutions filter_size sparse_labels batch_size channelDim).ground_truth) =
      some side_length := by
  cases sparse_labels <;> rfl

/-- Counterexample to C9 as stated: for the same `in_filters = 64` and
`out_channels = 2` and the same input tensor, the two classification heads
are not structurally identical sub-graphs — the 1x1 convolution is built with
`VALID` padding in the standard builder and `SAME` padding in the
parameter-efficient builder. -/
theorem classification_heads_differ :
    pe_classification_head 64 2 (Tensor.placeholder DType.float32 [] "t") ≠
      unet_classification_head 64 2 (Tensor.placeholder DType.float32 [] "t") := by
  decide

/-- C9 (amended): the two classification heads agree on everything except the
padding attribute of the 1x1 convolution: both build a 1x1 convolution with
initialization scale `sqrt(2 / in_filters)` and weights shaped
`[1, 1, in_filters, out_channels]`, add a bias, apply no nonlinearity, and
transpose to channel-last layout; after erasing the padding attribute the two
sub-graphs are equal. -/
theorem classification_heads_equal_up_to_padding (in_filters out_channels : Nat)
    (current : Tensor) :
    erasePadding (pe_classification_head in_filters out_channels current) =
      erasePadding (unet_classification_head in_filters out_channels current) ∧
    unet_classification_head in_filters out_channels current =
      Tensor.transpose (Tensor.add (Tensor.conv2d current
        (Tensor.weightVariable [1, 1, in_filters, out_channels]
          (Stddev.sqrt2Over in_filters) "weights") [1, 1, 1, 1] Padding.valid)
        (Tensor.biasVariable [out_channels, 1, 1] "biases")) [0, 2, 3, 1] ∧
    pe_classification_head in_filters out_channels current =
      Tensor.transpose (Tensor.add (Tensor.conv2d current
        (Tensor.weightVariable [1, 1, in_filters, out_channels]
          (Stddev.sqrt2Over in_filters) "weights") [1, 1, 1, 1] Padding.same)
        (Tensor.biasVariable [out_channels, 1, 1] "biases")) [0, 2, 3, 1] :=
  ⟨rfl, rfl, rfl⟩

end UNetModel
